import Mathlib

/-!
Verification of the configuration subsystem of btop-rs.

The development shallowly embeds `src/config/config.rs` together with the
helpers it uses from `src/util/mod.rs`, `src/util/logger.rs` and
`src/shared/global.rs`.  Pure Rust functions become Lean functions; the
`&mut self` methods become explicit state passing on a `Config` structure;
`HashMap` fields become association lists with first-match lookup and
replace-or-append insertion (only key membership and per-key values are ever
observed); Rust panics (`todo!()` / `panic!`) are modelled as `none` of an
`Option` result; the filesystem side of `Config::load` is modelled by an
explicit `Option (List String)` argument (`none` ~ the config file does not
exist, so `exists()` is false and `File::open` fails; `some lines` ~ the file
exists and its lines are read successfully; mid-stream read errors are not
modelled, no claim mentions them).
-/

namespace BtopRs

/-- Splitting of a character list at every occurrence of the separator `c`,
with the semantics of Rust's `str::split(char)`: empty fragments are kept and
the empty input yields one empty fragment. -/
def splitCharList (c : Char) : List Char → List (List Char)
  | [] => [[]]
  | x :: xs =>
    if x == c then [] :: splitCharList c xs
    else
      match splitCharList c xs with
      | [] => [[x]]
      | y :: ys => (x :: y) :: ys

/-- Rust's `str::split(c)`, collected into a list (models
`line.split('=')` in `Config::load`). -/
def splitChar (c : Char) (s : String) : List String :=
  (splitCharList c s.data).map String.mk

/-- Rust's `str::trim` (computed structurally on the character list; the
inputs of this module are ASCII, where Rust's Unicode whitespace and
`Char.isWhitespace` agree). -/
def strTrim (s : String) : String :=
  String.mk (((s.data.dropWhile Char.isWhitespace).reverse.dropWhile
    Char.isWhitespace).reverse)

/-- Rust's `str::is_empty`. -/
def strIsEmpty (s : String) : Bool :=
  s.data.isEmpty

/-- Rust's `str::starts_with(&str)`. -/
def strStartsWith (s pat : String) : Bool :=
  pat.data.isPrefixOf s.data

/-- Rust's `str::contains(&str)` substring test (models
`version_line.contains(global.get_version())`). -/
def strContains (s pat : String) : Bool :=
  (List.range (s.data.length + 1)).any (fun i => pat.data.isPrefixOf (s.data.drop i))

/-- Rust's `str::trim_matches('"')` as used in `Config::load` on string
values: strips every leading and trailing double quote. -/
def trimQuotes (s : String) : String :=
  String.mk (((s.data.dropWhile (fun ch => ch == '"')).reverse.dropWhile
    (fun ch => ch == '"')).reverse)

/-- Rust's `str::parse::<i32>()`: an optional sign followed by at least one
ASCII digit, with the value required to fit in a signed 32-bit integer. -/
def parseI32 (s : String) : Option Int :=
  let withSign : Int × List Char :=
    match s.data with
    | '+' :: rest => (1, rest)
    | '-' :: rest => (-1, rest)
    | rest => (1, rest)
  let digits := withSign.2
  if digits.isEmpty then none
  else if !(digits.all Char.isDigit) then none
  else
    let mag : Nat := digits.foldl (fun acc ch => acc * 10 + (ch.toNat - 48)) 0
    let v : Int := withSign.1 * (mag : Int)
    if v < -(2 ^ 31) then none
    else if v > 2 ^ 31 - 1 then none
    else some v

/-- The function `util::is_in` from `src/util/mod.rs`, kept with its (redundantly
recursive) source shape: `others.iter().any(|item| item == first) ||
!others.is_empty() && is_in(first, &others[1..])`. -/
def is_in (first : String) : List String → Bool
  | [] => false
  | x :: xs => ((x :: xs).any (fun item => item == first)) || is_in first xs

/-- Predicate `util::is_bool`. -/
def is_bool (value : String) : Bool :=
  is_in value ["true", "false", "True", "False"]

/-- Parser `util::parse_bool`: trims, lower-cases and matches the two boolean
literals. -/
def parse_bool (value : String) : Option Bool :=
  match String.mk ((strTrim value).data.map Char.toLower) with
  | "true" => some true
  | "false" => some false
  | _ => none

/-- Predicate `util::is_int`. -/
def is_int (value : String) : Bool :=
  (parseI32 value).isSome

/-- Modelled from the spec: the crate-root helper `ssplit` is imported by
`src/config/config.rs` but its definition is not under `src/`.  Per the spec
it splits a string value on a single-character separator into its fields
("space-separated tokens", "colon-delimited fields"); it is modelled as the
standard Rust character split. -/
def ssplit (s : String) (c : Char) : List String :=
  splitChar c s

/-- The log-level names of `Logger::new` in `src/util/logger.rs` (the config
validator reads them through `logger.get_levels()`; nothing ever mutates
them). -/
def logLevels : List String :=
  ["DISABLED", "ERROR", "WARNING", "INFO", "DEBUG"]

/-- The program version from `Global::get_instance` in
`src/shared/global.rs` (`Global::new(0, "1.0.0")`). -/
def globalVersion : String := "1.0.0"

/-- Key membership of the association-list model of `HashMap`
(`contains_key`). -/
def mapContains {α : Type} (m : List (String × α)) (k : String) : Bool :=
  m.any (fun p => p.1 == k)

/-- Lookup in the association-list model of `HashMap` (`get`). -/
def mapGet? {α : Type} (m : List (String × α)) (k : String) : Option α :=
  (m.find? (fun p => p.1 == k)).map (fun p => p.2)

/-- Insertion in the association-list model of `HashMap` (`insert`):
replaces the binding of an existing key, otherwise appends. -/
def mapInsert {α : Type} : List (String × α) → String → α → List (String × α)
  | [], k, v => [(k, v)]
  | p :: ps, k, v => if p.1 == k then (k, v) :: ps else p :: mapInsert ps k v

/-- The keys of an association-list map. -/
def mapKeys {α : Type} (m : List (String × α)) : List String :=
  m.map (fun p => p.1)

/-- The state of `Config` (`src/config/config.rs`).  `descriptions` keeps
only the key component of each `[key, help_text]` entry: no operation of the
module ever reads the help texts (`Config::load` projects `desc[0]` into
`valid_names`, `Config::locked` compares `a[0]`), so they are omitted.  The
`conf_dir`/`conf_file` paths are replaced by the explicit file argument of
`load`, and the `write_lock` atomic — loaded once and discarded in
`Config::locked` — is omitted; `locked` models the `locked: AtomicBool`
flag. -/
structure Config where
  descriptions : List String
  strings : List (String × String)
  strings_tmp : List (String × String)
  bools : List (String × Bool)
  bools_tmp : List (String × Bool)
  ints : List (String × Int)
  ints_tmp : List (String × Int)
  valid_graph_symbols : List String
  valid_graph_symbols_def : List String
  valid_boxes : List String
  temp_scales : List String
  current_boxes : List String
  preset_list : List String
  current_preset : Int
  write_new : Bool
  arg_low_color : Bool
  locked : Bool
  deriving DecidableEq

/-- Constructor `Config::new`: the initial store (the key of every `descriptions` entry,
and every typed table with its default values, in source order). -/
def initialConfig : Config where
  descriptions :=
    ["color_theme", "theme_background", "truecolor", "force_tty", "presets",
     "rounded_corners", "graph_symbol", "graph_symbol_cpu", "graph_symbol_mem",
     "graph_symbol_net", "graph_symbol_proc", "shown_boxes", "update_ms",
     "proc_sorting", "proc_reversed", "proc_tree", "proc_colors",
     "proc_gradient", "proc_per_core", "proc_mem_bytes", "proc_info_smaps",
     "proc_left", "cpu_graph_upper", "cpu_graph_lower", "cpu_invert_lower",
     "cpu_single_graph", "cpu_bottom", "show_uptime", "check_temp",
     "cpu_sensor", "show_coretemp", "cpu_core_map", "temp_scale",
     "show_cpu_freq", "clock_format", "background_update", "custom_cpu_name",
     "disks_filter", "mem_graphs", "mem_below_net", "show_swap", "swap_disk",
     "show_disks", "only_physical", "use_fstab", "show_io_stat", "io_mode",
     "io_graph_combined", "io_graph_speeds", "net_download", "net_upload",
     "net_auto", "net_sync", "net_iface", "show_battery", "log_level"]
  strings :=
    [("color_theme", "Default"),
     ("shown_boxes", "cpu mem net proc"),
     ("graph_symbol", "braille"),
     ("presets",
      "cpu:1:default,proc:0:default cpu:0:default,mem:0:default,net:0:default cpu:0:block,net:0:tty"),
     ("graph_symbol_cpu", "default"),
     ("graph_symbol_mem", "default"),
     ("graph_symbol_net", "default"),
     ("graph_symbol_proc", "default"),
     ("proc_sorting", "cpu lazy"),
     ("cpu_graph_upper", "total"),
     ("cpu_graph_lower", "total"),
     ("cpu_sensor", "Auto"),
     ("cpu_core_map", ""),
     ("temp_scale", "celsius"),
     ("clock_format", "%X"),
     ("custom_cpu_name", ""),
     ("disks_filter", ""),
     ("io_graph_speeds", ""),
     ("net_iface", ""),
     ("log_level", "WARNING"),
     ("proc_filter", ""),
     ("proc_command", ""),
     ("selected_name", "")]
  strings_tmp := []
  bools :=
    [("theme_background", true), ("truecolor", true),
     ("rounded_corners", true), ("proc_reversed", false),
     ("proc_tree", false), ("proc_colors", true),
     ("proc_gradient", true), ("proc_per_core", true),
     ("proc_mem_bytes", true), ("proc_info_smaps", false),
     ("proc_left", false), ("cpu_invert_lower", true),
     ("cpu_single_graph", false), ("cpu_bottom", false),
     ("show_uptime", true), ("check_temp", true),
     ("show_coretemp", true), ("show_cpu_freq", true),
     ("background_update", true), ("mem_graphs", true),
     ("mem_below_net", false), ("show_swap", true),
     ("swap_disk", true), ("show_disks", true),
     ("only_physical", true), ("use_fstab", false),
     ("show_io_stat", true), ("io_mode", false),
     ("io_graph_combined", false), ("net_auto", true),
     ("net_sync", false), ("show_battery", true),
     ("tty_mode", false), ("force_tty", false),
     ("lowcolor", false), ("show_detailed", false),
     ("proc_filtering", false)]
  bools_tmp := []
  ints :=
    [("update_ms", 2000), ("net_download", 100),
     ("net_upload", 100), ("detailed_pid", 0),
     ("selected_pid", 0), ("proc_start", 0),
     ("proc_selected", 0), ("proc_last_selected", 0)]
  ints_tmp := []
  valid_graph_symbols := ["braille", "block", "tty"]
  valid_graph_symbols_def := ["default", "braille", "block", "tty"]
  valid_boxes := ["cpu", "mem", "net", "proc"]
  temp_scales := ["celsius", "fahrenheit", "kelvin", "rankine"]
  current_boxes := []
  preset_list := ["cpu:0:default,mem:0:default,net:0:default,proc:0:default"]
  current_preset := 0
  write_new := false
  arg_low_color := false
  locked := false

/-- Enum `InvalidIntReason` (`src/config/config.rs`). -/
inductive InvalidIntReason where
  | ValueTooHigh
  | ValueTooLow
  | ParseError
  deriving DecidableEq

/-- Enum `InvalidPresetReason` (`src/config/config.rs`). -/
inductive InvalidPresetReason where
  | TooManyPresets
  | TooManyBoxes
  | MalformattedError
  | InvalidBoxName
  | InvalidPositionValue
  | InvalidGraphName
  deriving DecidableEq

/-- Enum `InvalidStrReason` (`src/config/config.rs`); `IOGraphSpeedError` is
spelled `IoGraphSpeedError` here. -/
inductive InvalidStrReason where
  | ParseError
  | LogLevel
  | GraphSymbolIdentifier
  | ShownBoxes
  | PresetsError
  | Err (r : InvalidPresetReason)
  | CpuCoreMapError
  | IoGraphSpeedError
  deriving DecidableEq

/-- Validator `Config::is_valid_int`: for `update_ms` a parsed value below 100 / above
86400000 is rejected with `ValueTooLow` / `ValueTooHigh`; every other key
only requires an `i32` parse. -/
def is_valid_int (key value : String) : Except InvalidIntReason Int :=
  if key == "update_ms" then
    match parseI32 value with
    | some parsed =>
      if parsed < 100 then .error .ValueTooLow
      else if parsed > 86400000 then .error .ValueTooHigh
      else .ok parsed
    | none => .error .ParseError
  else
    match parseI32 value with
    | some parsed => .ok parsed
    | none => .error .ParseError

/-- The per-box-spec checks of `Config::is_valid_presets`: a spec must split
on `:` into exactly three fields — a box name in {cpu, mem, net, proc}, a
position flag in {0, 1} and a graph symbol in `valid_graph_symbols_def` —
and the first violated check, in source order, is the reported reason. -/
def validateBox (cfg : Config) (b : String) : Option InvalidPresetReason :=
  match ssplit b ':' with
  | [v0, v1, v2] =>
    if !(is_in v0 ["cpu", "mem", "net", "proc"]) then some .InvalidBoxName
    else if !(is_in v1 ["0", "1"]) then some .InvalidPositionValue
    else if !(cfg.valid_graph_symbols_def.contains v2) then some .InvalidGraphName
    else none
  | _ => some .MalformattedError

/-- First error produced by `f` over a list, in order (the early `return`
of the loops in `Config::is_valid_presets`). -/
def firstErr {α β : Type} (f : α → Option β) : List α → Option β
  | [] => none
  | x :: xs =>
    match f x with
    | some e => some e
    | none => firstErr f xs

/-- The per-preset checks of `Config::is_valid_presets`: a preset splits on
`,` into at most 4 box specs (more reports `TooManyPresets`, a source
quirk), each validated by `validateBox`. -/
def validatePreset (cfg : Config) (preset : String) : Option InvalidPresetReason :=
  let boxes := ssplit preset ','
  if boxes.length > 4 then some .TooManyPresets
  else firstErr (validateBox cfg) boxes

/-- Validator `Config::is_valid_presets`.  The value splits on spaces into at most 9
presets; on any failed check the function returns the error with the store
untouched.  On full success the source assigns
`self.preset_list = new_presets`, where `new_presets` started as a *clone*
of the split presets and each preset was pushed again inside the loop — so
the stored list is the split presets followed by themselves once more. -/
def is_valid_presets (cfg : Config) (value : String) :
    Config × Except InvalidPresetReason Bool :=
  let presets := ssplit value ' '
  if presets.length > 9 then (cfg, .error .TooManyPresets)
  else
    match firstErr (validatePreset cfg) presets with
    | some e => (cfg, .error e)
    | none => ({ cfg with preset_list := presets ++ presets }, .ok true)

/-- Validator `Config::check_boxes`: every space-separated token must be a valid box
name; on success `current_boxes` is replaced by the token list. -/
def check_boxes (cfg : Config) (value : String) : Config × Bool :=
  let boxes := ssplit value ' '
  if boxes.all (fun b => cfg.valid_boxes.contains b) then
    ({ cfg with current_boxes := boxes }, true)
  else (cfg, false)

/-- One `cpu_core_map` token: exactly two colon-separated integer fields. -/
def coreMapOk (m : String) : Bool :=
  match ssplit m ':' with
  | [a, b] => is_int a && is_int b
  | _ => false

/-- One `io_graph_speeds` token: exactly two colon-separated fields, the
first non-empty, the second an integer. -/
def ioSpeedOk (m : String) : Bool :=
  match ssplit m ':' with
  | [a, b] => !(strIsEmpty a) && is_int b
  | _ => false

/-- Validator `Config::is_valid_string`.  The result `none` models a `todo!()` panic:
the `"presets"` arm panics on any `Err` from `is_valid_presets`.  Note that
the per-subsystem graph-symbol arm matches the *literal* key
`"graph_symbol_"` (with its guard `key.starts_with("graph_symbol_") &&
value.ne("default")` kept), so keys such as `graph_symbol_cpu` fall through
to the `_ => Err(ParseError)` arm. -/
def is_valid_string (cfg : Config) (key value : String) :
    Config × Option (Except InvalidStrReason Bool) :=
  if key == "log_level" then
    if logLevels.contains value then (cfg, some (.ok true))
    else (cfg, some (.error .LogLevel))
  else if key == "graph_symbol" then
    if cfg.valid_graph_symbols.contains value then (cfg, some (.ok true))
    else (cfg, some (.error .GraphSymbolIdentifier))
  else if key == "graph_symbol_" &&
      (strStartsWith key "graph_symbol_" && value != "default") then
    if cfg.valid_graph_symbols.contains value then (cfg, some (.ok true))
    else (cfg, some (.error .GraphSymbolIdentifier))
  else if key == "shown_boxes" && !(strIsEmpty value) then
    let r := check_boxes cfg value
    if r.2 then (r.1, some (.ok true)) else (r.1, some (.error .ShownBoxes))
  else if key == "presets" then
    let r := is_valid_presets cfg value
    match r.2 with
    | .ok true => (r.1, some (.ok true))
    | .ok false => (r.1, some (.error .PresetsError))
    | .error _ => (r.1, none)
  else if key == "cpu_core_map" then
    if (ssplit value ' ').all coreMapOk then (cfg, some (.ok true))
    else (cfg, some (.error .CpuCoreMapError))
  else if key == "io_graph_speeds" then
    if (ssplit value ' ').all ioSpeedOk then (cfg, some (.ok true))
    else (cfg, some (.error .IoGraphSpeedError))
  else (cfg, some (.error .ParseError))

/-- The warning text `Config::load` pushes for each `InvalidStrReason`;
`none` models the `todo!()` panic of the `InvalidStrReason::PresetsError`
arm. -/
def strWarning (key value : String) : InvalidStrReason → Option String
  | .ParseError => some ("Got an invalid string value for config name: " ++ key)
  | .LogLevel => some ("Invalid log_level: " ++ value)
  | .GraphSymbolIdentifier =>
    some ("Invalid graph symbol identifier for " ++ key ++ " : " ++ value)
  | .ShownBoxes => some "Invalid box name(s) in shown_boxes!"
  | .Err .TooManyPresets => some "Too many presets entered!"
  | .Err .TooManyBoxes => some "Too many boxes entered for preset!"
  | .Err .MalformattedError => some "Malformatted preset in config value presets!"
  | .Err .InvalidBoxName => some "Invalid box name in config value presets!"
  | .Err .InvalidPositionValue =>
    some "Invalid position value in config value presets!"
  | .Err .InvalidGraphName => some "Invalid graph name in config value presets!"
  | .PresetsError => none
  | .CpuCoreMapError => some "Invalid formatting of cpu_core_map!"
  | .IoGraphSpeedError => some "Invalid formatting of io_graph_speeds!"

/-- The `key = value` split of one line in `Config::load`: the raw line is
split on every `=` and only the first two fragments are bound
(`part.next(), part.next()`), each then trimmed; a line without `=` is not
an assignment. -/
def splitKV (line : String) : Option (String × String) :=
  match splitChar '=' line with
  | key :: value :: _ => some (strTrim key, strTrim value)
  | _ => none

/-- The body of the `for line in reader.lines()` loop of `Config::load` for
one line: skip blanks/comments/unknown keys, dispatch on the typed table
holding the key, insert accepted values, push one warning per rejected
value.  `none` models a reached panic (`todo!()` or
`panic!("can't parse str to bool")`). -/
def processLine (cfg : Config) (warnings : List String) (line : String) :
    Option (Config × List String) :=
  let trimLine := strTrim line
  if strIsEmpty trimLine || strStartsWith trimLine "#" then some (cfg, warnings)
  else
    match splitKV line with
    | none => some (cfg, warnings)
    | some (key, value) =>
      if !(cfg.descriptions.contains key) then some (cfg, warnings)
      else if mapContains cfg.bools key then
        if !(is_bool value) then
          some (cfg, warnings ++ ["Got an invalid bool value for config name: " ++ key])
        else
          match parse_bool value with
          | some v => some ({ cfg with bools := mapInsert cfg.bools key v }, warnings)
          | none => none
      else if mapContains cfg.ints key then
        if !(is_int value) then
          some (cfg, warnings ++ ["Got an invalid integer value for config name: " ++ key])
        else
          match is_valid_int key value with
          | .ok v =>
            match mapGet? cfg.ints key with
            | some _ => some ({ cfg with ints := mapInsert cfg.ints key v }, warnings)
            | none => none
          | .error .ValueTooHigh =>
            some (cfg, warnings ++ ["Config value update_ms set too high (>86400000)."])
          | .error .ValueTooLow =>
            some (cfg, warnings ++ ["Config value update_ms set too low (<100)."])
          | .error .ParseError => some (cfg, warnings ++ ["Invalid numerical value!"])
      else if mapContains cfg.strings key then
        let value := trimQuotes value
        match is_valid_string cfg key value with
        | (cfg', some (.ok true)) =>
          match mapGet? cfg'.strings key with
          | some _ =>
            some ({ cfg' with strings := mapInsert cfg'.strings key value }, warnings)
          | none => none
        | (_, some (.ok false)) => none
        | (cfg', some (.error r)) =>
          match strWarning key value r with
          | some msg => some (cfg', warnings ++ [msg])
          | none => none
        | (_, none) => none
      else some (cfg, warnings)

/-- The whole line loop of `Config::load`; stops with `none` as soon as one
line panics. -/
def scanLines (cfg : Config) (warnings : List String) :
    List String → Option (Config × List String)
  | [] => some (cfg, warnings)
  | l :: ls =>
    match processLine cfg warnings l with
    | none => none
    | some (cfg', warnings') => scanLines cfg' warnings' ls

/-- The outcome of `Config::load`: a propagated I/O error (with the state
as mutated so far and the caller's warning vector), a reached panic, or
`Ok(())` with the final state and warnings. -/
inductive LoadOutcome where
  | ioError (cfg : Config) (warnings : List String)
  | panicked
  | ok (cfg : Config) (warnings : List String)
  deriving DecidableEq

/-- Loader `Config::load`.  `file = none` models a config file that does not exist
(`conf_file.exists()` is false and `File::open` fails, the error being
propagated by `?`); `file = some lines` models an existing file whose lines
are read without I/O error, the first line being the version header read by
`read_line` (zero lines model `read_line` returning 0 bytes on an empty
file). -/
def load (cfg : Config) (warnings : List String) (file : Option (List String)) :
    LoadOutcome :=
  let cfg1 := if file.isNone then { cfg with write_new := true } else cfg
  match file with
  | none => .ioError cfg1 warnings
  | some lines =>
    match lines with
    | [] => .ok cfg1 warnings
    | versionLine :: rest =>
      let cfg2 :=
        if !(strContains versionLine globalVersion) then
          { cfg1 with write_new := true }
        else cfg1
      match scanLines cfg2 warnings rest with
      | none => .panicked
      | some (cfg3, w3) =>
        let cfg4 := if !w3.isEmpty then { cfg3 with write_new := true } else cfg3
        .ok cfg4 w3

/-- Method `Config::locked` (named `lockedCheck` to avoid clashing with the field
it reads): marks `write_new` when the key is schema-documented and returns
the lock-gate flag. -/
def Config.lockedCheck (cfg : Config) (key : String) : Config × Bool :=
  let cfg' :=
    if !cfg.write_new && cfg.descriptions.contains key then
      { cfg with write_new := true }
    else cfg
  (cfg', cfg'.locked)

/-- Setter `Config::set_bool`: writes to the shadow `bools_tmp` map while the lock
gate is engaged, to the live `bools` map otherwise. -/
def set_bool (cfg : Config) (key : String) (value : Bool) : Config :=
  let r := Config.lockedCheck cfg key
  if r.2 then { r.1 with bools_tmp := mapInsert r.1.bools_tmp key value }
  else { r.1 with bools := mapInsert r.1.bools key value }

/-- Spec-side validity of one preset box spec (the §3 Preset structure of
the spec, used as the hypothesis of the C5 refinement): exactly three
colon-separated fields — a box name in {cpu, mem, net, proc}, a position
flag in {0, 1}, a graph symbol in the default-inclusive symbol set. -/
def specBoxOk (cfg : Config) (b : String) : Bool :=
  match ssplit b ':' with
  | [name, pos, sym] =>
    (["cpu", "mem", "net", "proc"].contains name && ["0", "1"].contains pos) &&
      cfg.valid_graph_symbols_def.contains sym
  | _ => false

/-- Spec-side validity of a whole `presets` value: at most 9 space-separated
presets, each with at most 4 comma-separated box specs, each spec valid. -/
def specPresetsOk (cfg : Config) (value : String) : Bool :=
  let presets := ssplit value ' '
  decide (presets.length ≤ 9) && presets.all (fun p =>
    decide ((ssplit p ',').length ≤ 4) && (ssplit p ',').all (specBoxOk cfg))

/-- Number of typed tables (strings/bools/ints) containing a key (for the
schema-correspondence statement of C8). -/
def typedTableCount (cfg : Config) (k : String) : Nat :=
  (if mapContains cfg.strings k then 1 else 0) +
  (if mapContains cfg.bools k then 1 else 0) +
  (if mapContains cfg.ints k then 1 else 0)

/-- The twelve keys that `Config::new` places in a typed table without any
`descriptions` entry (runtime-internal settings). -/
def undocumentedKeys : List String :=
  ["proc_filter", "proc_command", "selected_name", "tty_mode", "lowcolor",
   "show_detailed", "proc_filtering", "detailed_pid", "selected_pid",
   "proc_start", "proc_selected", "proc_last_selected"]

/-! ## Helper lemmas -/

theorem mapGet?_mapInsert {α : Type} (m : List (String × α)) (k : String) (v : α) :
    mapGet? (mapInsert m k v) k = some v := by
  induction m with
  | nil => simp [mapInsert, mapGet?, List.find?]
  | cons p ps ih =>
    by_cases h : (p.1 == k) = true
    · simp [mapInsert, h, mapGet?, List.find?]
    · simp only [mapInsert, h, Bool.false_eq_true, if_false]
      simpa [mapGet?, List.find?, h] using ih

theorem is_in_iff (x : String) (l : List String) : is_in x l = true ↔ x ∈ l := by
  induction l with
  | nil => simp [is_in]
  | cons a as ih =>
    simp only [is_in, Bool.or_eq_true, List.any_eq_true, beq_iff_eq] at *
    constructor
    · rintro (⟨b, hb, rfl⟩ | h)
      · exact hb
      · exact List.mem_cons_of_mem a (ih.mp h)
    · intro h
      exact Or.inl ⟨x, h, rfl⟩

theorem firstErr_eq_none {α β : Type} (f : α → Option β) (l : List α)
    (h : ∀ x ∈ l, f x = none) : firstErr f l = none := by
  induction l with
  | nil => rfl
  | cons a as ih =>
    have ha := h a (List.mem_cons_self a as)
    simp only [firstErr, ha]
    exact ih (fun x hx => h x (List.mem_cons_of_mem a hx))

theorem splitCharList_append (c : Char) (xs ys : List Char) (h : c ∉ xs) :
    splitCharList c (xs ++ c :: ys) = xs :: splitCharList c ys := by
  induction xs with
  | nil => simp [splitCharList]
  | cons x xs ih =>
    have hxc : (x == c) = false := by
      simp only [beq_eq_false_iff_ne]
      intro hh
      exact h (hh ▸ List.mem_cons_self x xs)
    have hcs : c ∉ xs := fun hc => h (List.mem_cons_of_mem x hc)
    simp [splitCharList, hxc, ih hcs]

theorem validateBox_eq_none (cfg : Config) (b : String) (h : specBoxOk cfg b = true) :
    validateBox cfg b = none := by
  unfold specBoxOk at h
  unfold validateBox
  cases hm : ssplit b ':' with
  | nil => rw [hm] at h; simp at h
  | cons v0 rest =>
    cases rest with
    | nil => rw [hm] at h; simp at h
    | cons v1 rest2 =>
      cases rest2 with
      | nil => rw [hm] at h; simp at h
      | cons v2 rest3 =>
        cases rest3 with
        | cons v3 rest4 => rw [hm] at h; simp at h
        | nil =>
          rw [hm] at h
          simp only [Bool.and_eq_true] at h
          obtain ⟨⟨h0, h1⟩, h2⟩ := h
          have e0 : is_in v0 ["cpu", "mem", "net", "proc"] = true :=
            (is_in_iff _ _).mpr (List.elem_iff.mp h0)
          have e1 : is_in v1 ["0", "1"] = true :=
            (is_in_iff _ _).mpr (List.elem_iff.mp h1)
          simp [e0, e1, List.elem_iff.mp h2]

theorem validatePreset_eq_none (cfg : Config) (p : String)
    (h4 : (ssplit p ',').length ≤ 4)
    (hall : ∀ b ∈ ssplit p ',', specBoxOk cfg b = true) :
    validatePreset cfg p = none := by
  unfold validatePreset
  have hgt : ¬ (ssplit p ',').length > 4 := by omega
  rw [if_neg hgt]
  exact firstErr_eq_none _ _ (fun b hb => validateBox_eq_none cfg b (hall b hb))

theorem is_valid_int_other_keys (key value : String) (hk : key ≠ "update_ms") (n : Int) :
    is_valid_int key value = .ok n ↔ parseI32 value = some n := by
  have hb : (key == "update_ms") = false := beq_eq_false_iff_ne.mpr hk
  unfold is_valid_int
  rw [hb]
  simp only [Bool.false_eq_true, if_false]
  cases hp : parseI32 value with
  | some p => simp
  | none => simp

theorem lockedCheck_locked (cfg : Config) (key : String) :
    (Config.lockedCheck cfg key).2 = cfg.locked := by
  unfold Config.lockedCheck
  split <;> rfl

theorem lockedCheck_bools (cfg : Config) (key : String) :
    (Config.lockedCheck cfg key).1.bools = cfg.bools := by
  unfold Config.lockedCheck
  split <;> rfl

theorem lockedCheck_bools_tmp (cfg : Config) (key : String) :
    (Config.lockedCheck cfg key).1.bools_tmp = cfg.bools_tmp := by
  unfold Config.lockedCheck
  split <;> rfl

theorem lockedCheck_write_new (cfg : Config) (key : String)
    (hd : cfg.descriptions.contains key = true) :
    (Config.lockedCheck cfg key).1.write_new = true := by
  unfold Config.lockedCheck
  by_cases hc : (!cfg.write_new && cfg.descriptions.contains key) = true
  · rw [if_pos hc]
  · rw [if_neg hc]
    show cfg.write_new = true
    simp only [hd, Bool.and_true, Bool.not_eq_true'] at hc
    simpa using hc

theorem set_bool_of_locked (cfg : Config) (key : String) (v : Bool)
    (hl : cfg.locked = true) :
    set_bool cfg key v
      = { (Config.lockedCheck cfg key).1 with
          bools_tmp := mapInsert (Config.lockedCheck cfg key).1.bools_tmp key v } := by
  unfold set_bool
  rw [if_pos ((lockedCheck_locked cfg key).trans hl)]

theorem set_bool_of_unlocked (cfg : Config) (key : String) (v : Bool)
    (hl : cfg.locked = false) :
    set_bool cfg key v
      = { (Config.lockedCheck cfg key).1 with
          bools := mapInsert (Config.lockedCheck cfg key).1.bools key v } := by
  unfold set_bool
  rw [if_neg (by rw [lockedCheck_locked cfg key, hl]; simp)]

/-! ## Claim theorems -/

/-- C1 (code-bug evidence): the claim says every config line whose known
string key has a value rejected by a composite validator only appends a
warning and never panics — but loading a file whose `presets` value is
invalid (here position flag `2`) reaches the `todo!()` of
`is_valid_string`'s `"presets"` arm and panics instead. -/
theorem c1_invalid_presets_value_panics_load :
    load initialConfig []
        (some ["#? Config file for btop-rs v. 1.0.0", "presets = cpu:2:default"])
      = LoadOutcome.panicked := rfl

/-- C2 counterexample: with a missing config file, `load` does not return a
success result — it returns the propagated I/O error of `File::open` (after
having set `write_new`). -/
theorem c2_missing_file_returns_io_error :
    load initialConfig [] none
      = LoadOutcome.ioError { initialConfig with write_new := true } [] := rfl

/-- C2 (amended): for every store whose config file does not exist, `load`
sets the dirty flag `write_new` to true and then propagates the I/O error
from opening the missing file to the caller; there is no early success
return. -/
theorem c2_missing_file_sets_dirty_then_errors (cfg : Config) (warnings : List String) :
    load cfg warnings none
      = LoadOutcome.ioError { cfg with write_new := true } warnings := rfl

/-- C3 (code-bug evidence): the claim says the string validator accepts
`graph_symbol_*` keys exactly on {default, braille, block, tty} — but the
match arm is the literal key `"graph_symbol_"`, so `graph_symbol_cpu`
reaches the fallback and every value, including `braille` and `default`, is
rejected with `ParseError`; the full load of `graph_symbol_cpu = braille`
leaves the stored value unchanged and appends the generic string warning. -/
theorem c3_graph_symbol_prefix_keys_always_rejected :
    (is_valid_string initialConfig "graph_symbol_cpu" "braille").2
      = some (Except.error InvalidStrReason.ParseError) ∧
    (is_valid_string initialConfig "graph_symbol_cpu" "default").2
      = some (Except.error InvalidStrReason.ParseError) ∧
    load initialConfig []
        (some ["#? Config file for btop-rs v. 1.0.0", "graph_symbol_cpu = braille"])
      = LoadOutcome.ok { initialConfig with write_new := true }
          ["Got an invalid string value for config name: graph_symbol_cpu"] :=
  ⟨rfl, rfl, rfl⟩

/-- C4 counterexample: on the line `clock_format = a=b` the loader's
key/value split yields the value `a`, not the entire remainder `a=b` of the
line after the first `=`. -/
theorem c4_value_truncated_at_second_eq :
    splitKV "clock_format = a=b" = some ("clock_format", "a") ∧
    (some ("clock_format", "a") : Option (String × String))
      ≠ some ("clock_format", "a=b") := by
  constructor
  · decide
  · decide

/-- C4 (amended): the loader splits the raw line on every `=` and keeps only
the first two fragments: the key is the trimmed text before the first `=`
and the value is the trimmed text between the first and the second `=`; any
text after a second `=` is discarded. -/
theorem c4_split_keeps_first_two_fragments (k v1 v2 : String)
    (hk : '=' ∉ k.data) (hv : '=' ∉ v1.data) :
    splitKV (k ++ "=" ++ v1 ++ "=" ++ v2) = some (strTrim k, strTrim v1) := by
  have heq : ("=" : String).data = ['='] := rfl
  have hdata : (k ++ "=" ++ v1 ++ "=" ++ v2).data
      = k.data ++ '=' :: (v1.data ++ '=' :: v2.data) := by
    simp [String.data_append, heq]
  unfold splitKV splitChar
  rw [hdata, splitCharList_append _ _ _ hk, splitCharList_append _ _ _ hv]
  rfl

/-- Witness for C4 at the concrete line `clock_format = a=b`. -/
theorem c4_split_keeps_first_two_fragments_witness :
    splitKV ("clock_format " ++ "=" ++ " a" ++ "=" ++ "b")
      = some (strTrim "clock_format ", strTrim " a") :=
  c4_split_keeps_first_two_fragments "clock_format " " a" "b" (by decide) (by decide)

/-- C5 counterexample: validating the fully valid value
`cpu:0:default,mem:0:tty` succeeds, but the stored preset list contains the
single parsed preset twice, not once. -/
theorem c5_success_duplicates_presets :
    (is_valid_presets initialConfig "cpu:0:default,mem:0:tty").1.preset_list
      = ["cpu:0:default,mem:0:tty", "cpu:0:default,mem:0:tty"] ∧
    (is_valid_presets initialConfig "cpu:0:default,mem:0:tty").1.preset_list
      ≠ ["cpu:0:default,mem:0:tty"] ∧
    (is_valid_presets initialConfig "cpu:0:default,mem:0:tty").2 = Except.ok true := by
  refine ⟨rfl, ?_, rfl⟩
  decide

/-- C5 (amended): for every `presets` value in which all presets validate
(at most 9 presets, each with at most 4 box specs, each spec a valid box
name, position flag and graph symbol), validation succeeds and the store's
`preset_list` is replaced by the parsed presets in input order followed by
the same presets once more (each preset appears twice, because the result
list starts as a clone of the split input and every validated preset is
pushed again). -/
theorem c5_valid_presets_accepted_list_doubled (cfg : Config) (value : String)
    (h : specPresetsOk cfg value = true) :
    is_valid_presets cfg value
      = ({ cfg with preset_list := ssplit value ' ' ++ ssplit value ' ' },
         Except.ok true) := by
  unfold specPresetsOk at h
  simp only [Bool.and_eq_true, decide_eq_true_eq, List.all_eq_true] at h
  obtain ⟨h9, hall⟩ := h
  unfold is_valid_presets
  have hgt : ¬ (ssplit value ' ').length > 9 := by omega
  rw [if_neg hgt]
  have hfe : firstErr (validatePreset cfg) (ssplit value ' ') = none := by
    refine firstErr_eq_none _ _ (fun p hp => ?_)
    have hv := hall p hp
    simp only [Bool.and_eq_true, decide_eq_true_eq, List.all_eq_true] at hv
    exact validatePreset_eq_none cfg p hv.1 hv.2
  rw [hfe]

/-- Witness for C5 at the concrete value `cpu:0:default,mem:0:tty`. -/
theorem c5_valid_presets_accepted_list_doubled_witness :
    is_valid_presets initialConfig "cpu:0:default,mem:0:tty"
      = ({ initialConfig with preset_list :=
            ["cpu:0:default,mem:0:tty", "cpu:0:default,mem:0:tty"] },
         Except.ok true) :=
  c5_valid_presets_accepted_list_doubled initialConfig "cpu:0:default,mem:0:tty"
    (by decide)

/-- C6: for `update_ms` the integer validator enforces the inclusive bounds
100 ≤ v ≤ 86400000 — `99` yields `ValueTooLow`, `86400001` yields
`ValueTooHigh`, `100` and `86400000` are accepted (and `100` is stored by a
full load) — while every other integer key accepts exactly the values that
parse as a signed 32-bit integer, with no range constraint. -/
theorem c6_update_ms_bounds_and_other_keys :
    is_valid_int "update_ms" "99" = Except.error InvalidIntReason.ValueTooLow ∧
    is_valid_int "update_ms" "86400001" = Except.error InvalidIntReason.ValueTooHigh ∧
    is_valid_int "update_ms" "100" = Except.ok 100 ∧
    is_valid_int "update_ms" "86400000" = Except.ok 86400000 ∧
    load initialConfig []
        (some ["#? Config file for btop-rs v. 1.0.0", "update_ms = 100"])
      = LoadOutcome.ok
          { initialConfig with ints := mapInsert initialConfig.ints "update_ms" 100 }
          [] ∧
    ∀ key value : String, key ≠ "update_ms" → ∀ n : Int,
      (is_valid_int key value = Except.ok n ↔ parseI32 value = some n) := by
  refine ⟨rfl, rfl, rfl, rfl, rfl, ?_⟩
  intro key value hk n
  exact is_valid_int_other_keys key value hk n

/-- Witness for C6's universal part at the unbounded key `net_download`. -/
theorem c6_update_ms_bounds_and_other_keys_witness :
    is_valid_int "net_download" "7" = Except.ok 7 :=
  (c6_update_ms_bounds_and_other_keys.2.2.2.2.2 "net_download" "7" (by decide) 7).mpr rfl

/-- C7 counterexample: loading an existing empty config file returns success
with nothing changed — in particular `write_new` stays false (the claim says
the empty file sets it to true). -/
theorem c7_empty_file_leaves_write_new_false :
    load initialConfig [] (some []) = LoadOutcome.ok initialConfig [] ∧
    initialConfig.write_new = false := ⟨rfl, rfl⟩

/-- C7 (amended): for every config file that exists but is empty, `load`
returns success, appends no warnings and leaves the whole store — including
the dirty flag `write_new` — exactly unchanged. -/
theorem c7_empty_file_is_noop (cfg : Config) (warnings : List String) :
    load cfg warnings (some []) = LoadOutcome.ok cfg warnings := rfl

/-- C8 counterexample: `proc_filter` is a key of the strings table of
`Config::new` with no `descriptions` (schema) entry at all. -/
theorem c8_proc_filter_has_no_schema_entry :
    mapContains initialConfig.strings "proc_filter" = true ∧
    initialConfig.descriptions.count "proc_filter" = 0 := ⟨rfl, rfl⟩

/-- C8 (amended): in the store as constructed by `Config::new`, every schema
entry belongs to exactly one typed table, and every typed-table key has
exactly one schema entry *except* the twelve runtime-internal keys
(proc_filter, proc_command, selected_name; tty_mode, lowcolor,
show_detailed, proc_filtering; detailed_pid, selected_pid, proc_start,
proc_selected, proc_last_selected), which sit in exactly one typed table
but have no schema entry. -/
theorem c8_schema_table_correspondence :
    (initialConfig.descriptions.all
      (fun k => typedTableCount initialConfig k == 1) = true) ∧
    ((mapKeys initialConfig.strings ++ mapKeys initialConfig.bools ++
        mapKeys initialConfig.ints).all
      (fun k => undocumentedKeys.contains k ||
        (initialConfig.descriptions.count k == 1)) = true) ∧
    (undocumentedKeys.all
      (fun k => (initialConfig.descriptions.count k == 0) &&
        (typedTableCount initialConfig k == 1)) = true) := ⟨rfl, rfl, rfl⟩

/-- C9: `set_bool` writes to the pending shadow map and leaves the live map
unchanged while the lock gate is engaged, writes the live map directly when
it is not, and on a schema-documented key an unlocked call sets the dirty
flag `write_new` to true. -/
theorem c9_set_bool_lock_gate_and_dirty (cfg : Config) (key : String) (v : Bool) :
    (cfg.locked = true →
      (set_bool cfg key v).bools = cfg.bools ∧
      mapGet? (set_bool cfg key v).bools_tmp key = some v) ∧
    (cfg.locked = false →
      (set_bool cfg key v).bools = mapInsert cfg.bools key v ∧
      mapGet? (set_bool cfg key v).bools key = some v ∧
      (set_bool cfg key v).bools_tmp = cfg.bools_tmp) ∧
    (cfg.locked = false → cfg.descriptions.contains key = true →
      (set_bool cfg key v).write_new = true) := by
  refine ⟨fun hl => ?_, fun hl => ?_, fun hl hd => ?_⟩
  · rw [set_bool_of_locked cfg key v hl]
    refine ⟨lockedCheck_bools cfg key, ?_⟩
    exact mapGet?_mapInsert _ _ _
  · rw [set_bool_of_unlocked cfg key v hl]
    refine ⟨?_, ?_, lockedCheck_bools_tmp cfg key⟩
    · show mapInsert (Config.lockedCheck cfg key).1.bools key v = mapInsert cfg.bools key v
      rw [lockedCheck_bools]
    · show mapGet? (mapInsert (Config.lockedCheck cfg key).1.bools key v) key = some v
      exact mapGet?_mapInsert _ _ _
  · rw [set_bool_of_unlocked cfg key v hl]
    show (Config.lockedCheck cfg key).1.write_new = true
    exact lockedCheck_write_new cfg key hd

/-- Witness for C9 at the documented key `proc_tree`, both unlocked (live
write and dirty flag) and locked (shadow write, live map untouched). -/
theorem c9_set_bool_lock_gate_and_dirty_witness :
    (set_bool initialConfig "proc_tree" true).write_new = true ∧
    (set_bool initialConfig "proc_tree" true).bools
      = mapInsert initialConfig.bools "proc_tree" true ∧
    (set_bool { initialConfig with locked := true } "proc_tree" true).bools
      = ({ initialConfig with locked := true } : Config).bools ∧
    mapGet? (set_bool { initialConfig with locked := true } "proc_tree" true).bools_tmp
        "proc_tree" = some true := by
  have h1 := c9_set_bool_lock_gate_and_dirty initialConfig "proc_tree" true
  have h2 := c9_set_bool_lock_gate_and_dirty
    { initialConfig with locked := true } "proc_tree" true
  exact ⟨h1.2.2 rfl rfl, (h1.2.1 rfl).1, (h2.1 rfl).1, (h2.1 rfl).2⟩

/-- C10: whenever `is_valid_presets` rejects its input (with any
`InvalidPresetReason`), the store's `preset_list` and `current_preset` are
left exactly as they were — the preset list is only assigned after every
preset and box spec has validated. -/
theorem c10_presets_rejection_preserves_state (cfg : Config) (value : String)
    (e : InvalidPresetReason)
    (h : (is_valid_presets cfg value).2 = Except.error e) :
    (is_valid_presets cfg value).1.preset_list = cfg.preset_list ∧
    (is_valid_presets cfg value).1.current_preset = cfg.current_preset := by
  unfold is_valid_presets at h ⊢
  by_cases h9 : (ssplit value ' ').length > 9
  · rw [if_pos h9]
    exact ⟨rfl, rfl⟩
  · rw [if_neg h9] at h ⊢
    cases hfe : firstErr (validatePreset cfg) (ssplit value ' ') with
    | some e2 => exact ⟨rfl, rfl⟩
    | none => rw [hfe] at h; simp at h

/-- Witness for C10 at the rejected value `cpu:2:default` (invalid position
flag). -/
theorem c10_presets_rejection_preserves_state_witness :
    (is_valid_presets initialConfig "cpu:2:default").1.preset_list
      = initialConfig.preset_list ∧
    (is_valid_presets initialConfig "cpu:2:default").1.current_preset
      = initialConfig.current_preset :=
  c10_presets_rejection_preserves_state initialConfig "cpu:2:default"
    InvalidPresetReason.InvalidPositionValue rfl

end BtopRs
